import Mathlib

/-
Verification development for the xion-stack-template repository.
Shallow embedding of the configuration registry (src/lib/config.ts),
the provider factories and stub providers (src/lib/auth.ts,
src/lib/database.ts, the payments module), the mock auth provider and
the local-storage database provider. Environment variables are modelled
as optional strings; process.env reads become fields of an Env record.
-/

namespace XionStack

/-- Environment variables read by the configuration system. A value of
none models an unset variable, some s a variable set to the string s. -/
structure Env where
  NEXT_PUBLIC_ENABLE_AUTH : Option String := none
  NEXT_PUBLIC_ENABLE_DATABASE : Option String := none
  NEXT_PUBLIC_ENABLE_PAYMENTS : Option String := none
  NEXT_PUBLIC_ENABLE_REALTIME : Option String := none
  NEXT_PUBLIC_ENABLE_ANALYTICS : Option String := none
  NEXT_PUBLIC_ENABLE_EMAIL : Option String := none
  NEXT_PUBLIC_ENABLE_FILE_UPLOAD : Option String := none
  NEXT_PUBLIC_ENABLE_NOTIFICATIONS : Option String := none
  NEXT_PUBLIC_SUPABASE_URL : Option String := none
  NEXT_PUBLIC_SUPABASE_ANON_KEY : Option String := none
  NEXT_PUBLIC_STRIPE_PUBLISHABLE_KEY : Option String := none
  STRIPE_SECRET_KEY : Option String := none
  STRIPE_WEBHOOK_SECRET : Option String := none
  AUTH0_DOMAIN : Option String := none
  AUTH0_CLIENT_ID : Option String := none
  AUTH0_CLIENT_SECRET : Option String := none
  SENDGRID_API_KEY : Option String := none
  AWS_ACCESS_KEY_ID : Option String := none
  AWS_SECRET_ACCESS_KEY : Option String := none
  AWS_REGION : Option String := none
  NODE_ENV : Option String := none
deriving DecidableEq

/-- JavaScript truthiness of an optional string: unset and the empty
string are falsy, every other string is truthy. Models the double-bang
coercion used in config.ts provider enablement. -/
def truthy : Option String → Bool
  | none => false
  | some s => !s.isEmpty

/-- JavaScript logical-or with a string default, as in
process.env.X || constant: takes the default when the variable is unset
or the empty string. -/
def jsOr (o : Option String) (d : String) : String :=
  match o with
  | none => d
  | some s => if s.isEmpty then d else s

/-- FeatureConfig from src/lib/config.ts: enabled flag, required flag
and a fallback description. -/
structure FeatureConfig where
  enabled : Bool
  required : Bool
  fallback : Option String
deriving DecidableEq

/-- The eight feature entries of defaultConfig.features. -/
structure Features where
  authentication : FeatureConfig
  database : FeatureConfig
  payments : FeatureConfig
  realtime : FeatureConfig
  analytics : FeatureConfig
  email : FeatureConfig
  fileUpload : FeatureConfig
  notifications : FeatureConfig
deriving DecidableEq

/-- Supabase provider entry: enabled, required, url, anonKey. -/
structure SupabaseConfig where
  enabled : Bool
  required : Bool
  url : Option String
  anonKey : Option String
deriving DecidableEq

/-- Stripe provider entry. -/
structure StripeConfig where
  enabled : Bool
  required : Bool
  publishableKey : Option String
  secretKey : Option String
  webhookSecret : Option String
deriving DecidableEq

/-- Auth0 provider entry. -/
structure Auth0Config where
  enabled : Bool
  required : Bool
  domain : Option String
  clientId : Option String
  clientSecret : Option String
deriving DecidableEq

/-- SendGrid provider entry. -/
structure SendgridConfig where
  enabled : Bool
  required : Bool
  apiKey : Option String
deriving DecidableEq

/-- AWS provider entry. -/
structure AwsConfig where
  enabled : Bool
  required : Bool
  accessKeyId : Option String
  secretAccessKey : Option String
  region : String
deriving DecidableEq

/-- The five provider entries of defaultConfig.providers. -/
structure Providers where
  supabase : SupabaseConfig
  stripe : StripeConfig
  auth0 : Auth0Config
  sendgrid : SendgridConfig
  aws : AwsConfig
deriving DecidableEq

/-- UI configuration of defaultConfig.ui. -/
structure UiConfig where
  theme : String
  primaryColor : String
  showBranding : Bool
  enableAnimations : Bool
deriving DecidableEq

/-- App configuration of defaultConfig.app. -/
structure AppConfig where
  name : String
  description : String
  url : String
  supportEmail : String
deriving DecidableEq

/-- The whole XionConfig record of src/lib/config.ts. -/
structure XionConfig where
  features : Features
  providers : Providers
  ui : UiConfig
  app : AppConfig
deriving DecidableEq

/-- defaultConfig.features from src/lib/config.ts lines 74 to 115: each
feature is enabled exactly when its environment variable equals the
literal string true; every required flag is the literal false. -/
def defaultFeatures (env : Env) : Features where
  authentication :=
    ⟨env.NEXT_PUBLIC_ENABLE_AUTH == some "true", false, some "No authentication required"⟩
  database :=
    ⟨env.NEXT_PUBLIC_ENABLE_DATABASE == some "true", false, some "Using local storage"⟩
  payments :=
    ⟨env.NEXT_PUBLIC_ENABLE_PAYMENTS == some "true", false, some "Payments disabled"⟩
  realtime :=
    ⟨env.NEXT_PUBLIC_ENABLE_REALTIME == some "true", false, some "Real-time features disabled"⟩
  analytics :=
    ⟨env.NEXT_PUBLIC_ENABLE_ANALYTICS == some "true", false, some "Analytics disabled"⟩
  email :=
    ⟨env.NEXT_PUBLIC_ENABLE_EMAIL == some "true", false, some "Email features disabled"⟩
  fileUpload :=
    ⟨env.NEXT_PUBLIC_ENABLE_FILE_UPLOAD == some "true", false, some "File upload disabled"⟩
  notifications :=
    ⟨env.NEXT_PUBLIC_ENABLE_NOTIFICATIONS == some "true", false, some "Notifications disabled"⟩

/-- defaultConfig.providers from src/lib/config.ts lines 117 to 150.
Each enabled flag is the truthiness of the conjunction the source
writes: supabase needs url and anonKey, stripe needs publishableKey and
secretKey, auth0 needs domain and clientId, sendgrid needs apiKey, aws
needs accessKeyId and secretAccessKey; the aws region falls back to
us-east-1. -/
def defaultProviders (env : Env) : Providers where
  supabase :=
    ⟨truthy env.NEXT_PUBLIC_SUPABASE_URL && truthy env.NEXT_PUBLIC_SUPABASE_ANON_KEY,
      false, env.NEXT_PUBLIC_SUPABASE_URL, env.NEXT_PUBLIC_SUPABASE_ANON_KEY⟩
  stripe :=
    ⟨truthy env.NEXT_PUBLIC_STRIPE_PUBLISHABLE_KEY && truthy env.STRIPE_SECRET_KEY,
      false, env.NEXT_PUBLIC_STRIPE_PUBLISHABLE_KEY, env.STRIPE_SECRET_KEY,
      env.STRIPE_WEBHOOK_SECRET⟩
  auth0 :=
    ⟨truthy env.AUTH0_DOMAIN && truthy env.AUTH0_CLIENT_ID,
      false, env.AUTH0_DOMAIN, env.AUTH0_CLIENT_ID, env.AUTH0_CLIENT_SECRET⟩
  sendgrid :=
    ⟨truthy env.SENDGRID_API_KEY, false, env.SENDGRID_API_KEY⟩
  aws :=
    ⟨truthy env.AWS_ACCESS_KEY_ID && truthy env.AWS_SECRET_ACCESS_KEY,
      false, env.AWS_ACCESS_KEY_ID, env.AWS_SECRET_ACCESS_KEY,
      jsOr env.AWS_REGION "us-east-1"⟩

/-- The exported config value: defaultConfig evaluated on the process
environment (ui and app defaults from src/lib/config.ts lines 152 to
165, with no overriding variables modelled since no claim touches
them). -/
def config (env : Env) : XionConfig where
  features := defaultFeatures env
  providers := defaultProviders env
  ui := ⟨"system", "#3b82f6", true, true⟩
  app := ⟨"Xion Stack App", "Built with the bulletproof Xion Stack",
    "http://localhost:3000", "support@example.com"⟩

/-- The closed set of feature names, as the keyof type of the features
record. -/
inductive FeatureName
  | authentication
  | database
  | payments
  | realtime
  | analytics
  | email
  | fileUpload
  | notifications
deriving DecidableEq, Fintype

/-- The closed set of provider names, as the keyof type of the
providers record. -/
inductive ProviderName
  | supabase
  | stripe
  | auth0
  | sendgrid
  | aws
deriving DecidableEq, Fintype

/-- Field access into the typed features record. -/
def Features.get (fs : Features) : FeatureName → FeatureConfig
  | .authentication => fs.authentication
  | .database => fs.database
  | .payments => fs.payments
  | .realtime => fs.realtime
  | .analytics => fs.analytics
  | .email => fs.email
  | .fileUpload => fs.fileUpload
  | .notifications => fs.notifications

/-- The environment variable backing each feature toggle (the pairing
written out in defaultConfig.features). -/
def featureVar : FeatureName → Env → Option String
  | .authentication, env => env.NEXT_PUBLIC_ENABLE_AUTH
  | .database, env => env.NEXT_PUBLIC_ENABLE_DATABASE
  | .payments, env => env.NEXT_PUBLIC_ENABLE_PAYMENTS
  | .realtime, env => env.NEXT_PUBLIC_ENABLE_REALTIME
  | .analytics, env => env.NEXT_PUBLIC_ENABLE_ANALYTICS
  | .email, env => env.NEXT_PUBLIC_ENABLE_EMAIL
  | .fileUpload, env => env.NEXT_PUBLIC_ENABLE_FILE_UPLOAD
  | .notifications, env => env.NEXT_PUBLIC_ENABLE_NOTIFICATIONS

/-- Enabled flag of the typed providers record. -/
def Providers.enabledOf (ps : Providers) : ProviderName → Bool
  | .supabase => ps.supabase.enabled
  | .stripe => ps.stripe.enabled
  | .auth0 => ps.auth0.enabled
  | .sendgrid => ps.sendgrid.enabled
  | .aws => ps.aws.enabled

/-- isFeatureEnabled from src/lib/config.ts lines 171 to 173, typed
view: the statically checked member access of the TypeScript source. -/
def isFeatureEnabled (env : Env) (feature : FeatureName) : Bool :=
  ((config env).features.get feature).enabled

/-- isProviderEnabled from src/lib/config.ts lines 175 to 177, typed
view. -/
def isProviderEnabled (env : Env) (provider : ProviderName) : Bool :=
  (config env).providers.enabledOf provider

/-- getFeatureFallback from src/lib/config.ts lines 179 to 181, typed
view: the fallback string or the default. -/
def getFeatureFallback (env : Env) (feature : FeatureName) : String :=
  jsOr ((config env).features.get feature).fallback "Feature disabled"

/-- Entries of the features record in declaration order, as produced by
Object.entries in validateConfig. -/
def featuresEntries (fs : Features) : List (String × FeatureConfig) :=
  [("authentication", fs.authentication), ("database", fs.database),
   ("payments", fs.payments), ("realtime", fs.realtime),
   ("analytics", fs.analytics), ("email", fs.email),
   ("fileUpload", fs.fileUpload), ("notifications", fs.notifications)]

/-- Result record of validateConfig. -/
structure ValidationResult where
  valid : Bool
  errors : List String
deriving DecidableEq

/-- Error message pushed for a disabled required feature. -/
def requiredFeatureMsg (name : String) : String :=
  "Required feature \x27" ++ name ++ "\x27 is disabled"

/-- Error message for database enabled without supabase. -/
def dbDependencyMsg : String :=
  "Database feature enabled but Supabase provider not configured"

/-- Error message for payments enabled without stripe. -/
def paymentsDependencyMsg : String :=
  "Payments feature enabled but Stripe provider not configured"

/-- Error message for email enabled without sendgrid. -/
def emailDependencyMsg : String :=
  "Email feature enabled but SendGrid provider not configured"

/-- validateConfig from src/lib/config.ts lines 190 to 217: collects
one message per disabled required feature, then one message per
violated feature-to-provider dependency, and reports valid exactly when
the list is empty. A pure total function, mirroring that the source
never throws. -/
def validateConfig (env : Env) : ValidationResult :=
  let cfg := config env
  let requiredErrors :=
    (featuresEntries cfg.features).filterMap fun p =>
      if p.2.required && !p.2.enabled then some (requiredFeatureMsg p.1) else none
  let dbErrors :=
    if cfg.features.database.enabled && !cfg.providers.supabase.enabled then
      [dbDependencyMsg] else []
  let payErrors :=
    if cfg.features.payments.enabled && !cfg.providers.stripe.enabled then
      [paymentsDependencyMsg] else []
  let emailErrors :=
    if cfg.features.email.enabled && !cfg.providers.sendgrid.enabled then
      [emailDependencyMsg] else []
  let errors := requiredErrors ++ dbErrors ++ payErrors ++ emailErrors
  ⟨errors.isEmpty, errors⟩

/-- Starts-with test on character lists, structural in both lists. -/
def startsWithChars : List Char → List Char → Bool
  | _, [] => true
  | [], _ :: _ => false
  | c :: cs, d :: ds => c == d && startsWithChars cs ds

/-- Occurrence test on character lists: some suffix of the haystack
starts with the needle. -/
def occursChars (needle : List Char) : List Char → Bool
  | [] => needle.isEmpty
  | c :: tail => startsWithChars (c :: tail) needle || occursChars needle tail

/-- Occurrence test used to formalise that a message mentions a name:
the lowercased characters of the message contain the characters of the
(lowercase) name as a contiguous run. -/
def mentionsWord (msg w : String) : Bool :=
  occursChars w.toList (msg.toList.map Char.toLower)

/-- Thrown JavaScript errors, carrying their message. -/
inductive JsError
  | error (msg : String)
deriving DecidableEq

/-- The database provider variants of src/lib/database.ts. -/
inductive DatabaseProviderKind
  | supabaseDatabase
  | localStorageDatabase
  | noDatabase
deriving DecidableEq

/-- The auth provider variants of src/lib/auth.ts. -/
inductive AuthProviderKind
  | supabaseAuth
  | auth0Auth
  | mockAuth
  | noAuth
deriving DecidableEq

/-- getDatabaseProvider from src/lib/database.ts lines 220 to 238:
disabled feature gives the stub, enabled supabase gives the hosted
provider, development mode gives the local-storage fallback, and
otherwise construction throws. -/
def getDatabaseProvider (env : Env) : Except JsError DatabaseProviderKind :=
  if !isFeatureEnabled env .database then
    .ok .noDatabase
  else if isProviderEnabled env .supabase then
    .ok .supabaseDatabase
  else if env.NODE_ENV == some "development" then
    .ok .localStorageDatabase
  else
    .error (.error "Supabase is required for database functionality")

/-- getAuthProvider from src/lib/auth.ts lines 228 to 247: disabled
feature gives the stub, then supabase, then auth0, then the mock in
development, and otherwise the stub again with no throwing path. -/
def getAuthProvider (env : Env) : AuthProviderKind :=
  if !isFeatureEnabled env .authentication then
    .noAuth
  else if isProviderEnabled env .supabase then
    .supabaseAuth
  else if isProviderEnabled env .auth0 then
    .auth0Auth
  else if env.NODE_ENV == some "development" then
    .mockAuth
  else
    .noAuth

/-- The six operations of the auth capability set. -/
inductive AuthOp
  | signIn
  | signUp
  | signOut
  | getCurrentUser
  | resetPassword
  | updateProfile
deriving DecidableEq, Fintype

/-- The six operations of the database capability set. -/
inductive DbOp
  | query
  | insertOp
  | updateOp
  | deleteOp
  | findById
  | findMany
deriving DecidableEq, Fintype

/-- The six operations of the payments capability set. -/
inductive PayOp
  | createCheckoutSession
  | createSubscription
  | cancelSubscription
  | getCustomer
  | createCustomer
  | getPaymentMethods
deriving DecidableEq, Fintype

/-- Observable outcome of invoking a stub-provider operation: a thrown
error with its message, a void success, or a successful null result. -/
inductive StubResult
  | threw (msg : String)
  | unitOk
  | nullOk
deriving DecidableEq

/-- NoAuthProvider from src/lib/auth.ts lines 201 to 225: four
operations throw, signOut is an explicit no-op and getCurrentUser
returns null. -/
def noAuthProviderOp : AuthOp → StubResult
  | .signIn => .threw "Authentication is disabled"
  | .signUp => .threw "Authentication is disabled"
  | .signOut => .unitOk
  | .getCurrentUser => .nullOk
  | .resetPassword => .threw "Authentication is disabled"
  | .updateProfile => .threw "Authentication is disabled"

/-- NoDatabaseProvider from src/lib/database.ts lines 193 to 217: every
operation throws. -/
def noDatabaseProviderOp : DbOp → StubResult
  | .query => .threw "Database is disabled"
  | .insertOp => .threw "Database is disabled"
  | .updateOp => .threw "Database is disabled"
  | .deleteOp => .threw "Database is disabled"
  | .findById => .threw "Database is disabled"
  | .findMany => .threw "Database is disabled"

/-- NoPaymentProvider from the payments module: every operation
throws. -/
def noPaymentProviderOp : PayOp → StubResult
  | .createCheckoutSession => .threw "Payments are disabled"
  | .createSubscription => .threw "Payments are disabled"
  | .cancelSubscription => .threw "Payments are disabled"
  | .getCustomer => .threw "Payments are disabled"
  | .createCustomer => .threw "Payments are disabled"
  | .getPaymentMethods => .threw "Payments are disabled"

/-- Union of the three capability sets, tagging each operation with its
domain. -/
inductive DisabledOp
  | authOp (op : AuthOp)
  | dbOp (op : DbOp)
  | payOp (op : PayOp)
deriving DecidableEq, Fintype

/-- Outcome of invoking an operation on the disabled-stub provider of
its domain. -/
def disabledProviderOutcome : DisabledOp → StubResult
  | .authOp op => noAuthProviderOp op
  | .dbOp op => noDatabaseProviderOp op
  | .payOp op => noPaymentProviderOp op

/-- Recogniser for the CapabilityDisabled members of the error taxonomy
of the specification: the outcome is a thrown error whose message is
one of the three capability-disabled messages. -/
def isCapabilityDisabled : StubResult → Bool
  | .threw msg =>
    msg == "Authentication is disabled" || msg == "Database is disabled"
      || msg == "Payments are disabled"
  | .unitOk => false
  | .nullOk => false

/-- Lookup of a key in an association list, the model of a JavaScript
property or Map access: the value at the first matching key, or none
(undefined) when the key is absent. -/
def jsLookup {α : Type} (k : String) : List (String × α) → Option α
  | [] => none
  | p :: rest => if p.1 = k then some p.2 else jsLookup k rest

/-- Key-preserving assignment on an association list with JavaScript
object and Map semantics: an existing key keeps its position and gets
the new value, a fresh key is appended at the end. -/
def assocSet {α : Type} (l : List (String × α)) (k : String) (v : α) :
    List (String × α) :=
  if k ∈ l.map Prod.fst then
    l.map fun p => if p.1 = k then (k, v) else p
  else
    l ++ [(k, v)]

/-- Outcome of a JavaScript member access that may hit undefined: a
value, or the TypeError fault raised by reading a property of
undefined. -/
inductive JsOutcome (α : Type)
  | ok (a : α)
  | typeErrorFault
deriving DecidableEq

/-- Runtime view of a provider entry, tagged by which provider it
describes, as returned by getProviderConfig. -/
inductive ProviderConfigV
  | supabaseV (c : SupabaseConfig)
  | stripeV (c : StripeConfig)
  | auth0V (c : Auth0Config)
  | sendgridV (c : SendgridConfig)
  | awsV (c : AwsConfig)
deriving DecidableEq

/-- Entries of the providers record in declaration order. -/
def providersEntries (ps : Providers) : List (String × ProviderConfigV) :=
  [("supabase", .supabaseV ps.supabase), ("stripe", .stripeV ps.stripe),
   ("auth0", .auth0V ps.auth0), ("sendgrid", .sendgridV ps.sendgrid),
   ("aws", .awsV ps.aws)]

/-- Enabled flag of a runtime provider view. -/
def ProviderConfigV.enabled : ProviderConfigV → Bool
  | .supabaseV c => c.enabled
  | .stripeV c => c.enabled
  | .auth0V c => c.enabled
  | .sendgridV c => c.enabled
  | .awsV c => c.enabled

/-- isFeatureEnabled as it executes at runtime on an arbitrary string
key: the member access config.features[feature] yields undefined for a
key outside the record, and reading .enabled on undefined raises a
TypeError. -/
def isFeatureEnabledJs (env : Env) (name : String) : JsOutcome Bool :=
  match jsLookup name (featuresEntries (config env).features) with
  | some fc => .ok fc.enabled
  | none => .typeErrorFault

/-- getFeatureFallback at runtime on an arbitrary string key; reading
.fallback on undefined raises a TypeError. -/
def getFeatureFallbackJs (env : Env) (name : String) : JsOutcome String :=
  match jsLookup name (featuresEntries (config env).features) with
  | some fc => .ok (jsOr fc.fallback "Feature disabled")
  | none => .typeErrorFault

/-- isProviderEnabled at runtime on an arbitrary string key. -/
def isProviderEnabledJs (env : Env) (name : String) : JsOutcome Bool :=
  match jsLookup name (providersEntries (config env).providers) with
  | some pc => .ok pc.enabled
  | none => .typeErrorFault

/-- getProviderConfig at runtime on an arbitrary string key: it merely
returns the member access, so an unknown key yields undefined (none)
without any fault. -/
def getProviderConfigJs (env : Env) (name : String) : Option ProviderConfigV :=
  jsLookup name (providersEntries (config env).providers)

/-- User record of src/lib/auth.ts; the metadata field is omitted
because no modelled provider ever sets it. -/
structure User where
  id : String
  email : String
  name : Option String
  avatar : Option String
  role : Option String
deriving DecidableEq

/-- State of MockAuthProvider: its users Map, in insertion order. -/
abbrev MockAuthState := List (String × User)

/-- JavaScript String.split with a single-character separator, on the
character list of the string. Always returns at least one piece. -/
def jsSplit (sep : Char) : List Char → List (List Char)
  | [] => [[]]
  | c :: rest =>
    match jsSplit sep rest with
    | [] => [[]]
    | h :: t => if c == sep then [] :: h :: t else (c :: h) :: t

/-- The expression email.split(at-sign)[0] used by MockAuthProvider for
the default display name: the piece of the split before the first
at-sign. -/
def localPart (email : String) : String :=
  ((jsSplit '@' email.toList).headD []).asString

/-- MockAuthProvider.signIn from src/lib/auth.ts lines 158 to 168:
always succeeds, builds a user with fixed id mock-user-1, the given
email, the local part of the email as name and role user, stores it in
the users Map under the email and returns it. -/
def mockSignIn (s : MockAuthState) (email _password : String) :
    User × MockAuthState :=
  let user : User := ⟨"mock-user-1", email, some (localPart email), none, some "user"⟩
  (user, assocSet s email user)

/-- MockAuthProvider.signUp from src/lib/auth.ts lines 170 to 179; the
Date.now id component is passed in as a parameter. -/
def mockSignUp (s : MockAuthState) (email _password : String)
    (name : Option String) (now : Nat) : User × MockAuthState :=
  let user : User :=
    ⟨"mock-user-" ++ toString now, email, some (jsOr name (localPart email)),
      none, some "user"⟩
  (user, assocSet s email user)

/-- MockAuthProvider.signOut from src/lib/auth.ts lines 181 to 183: the
body is empty, so the users Map is returned unchanged. -/
def mockSignOut (s : MockAuthState) : MockAuthState :=
  s

/-- MockAuthProvider.getCurrentUser from src/lib/auth.ts lines 185 to
188: the first value of the users Map, or null when the Map is empty. A
pure read returning no new state. -/
def mockGetCurrentUser (s : MockAuthState) : Option User :=
  s.head?.map Prod.snd

/-- Stored record of the local-storage database: a JSON object with
string-valued fields, keys unique and in insertion order. -/
abbrev Obj := List (String × String)

/-- Member access item[k] on a stored record. -/
def objGet (o : Obj) (k : String) : Option String :=
  jsLookup k o

/-- Object-spread accumulation: fold the fields into the object one by
one with JavaScript override semantics. -/
def objMerge (o : Obj) (fields : List (String × String)) : Obj :=
  fields.foldl (fun acc p => assocSet acc p.1 p.2) o

/-- The localStorage backing store: one entry per key db_<table>, each
holding the parsed JSON array of records (the JSON round-trip is
elided, JSON.parse after JSON.stringify being the identity on these
records). -/
abbrev Storage := List (String × List Obj)

/-- getTableData from src/lib/database.ts lines 123 to 126: the parsed
array under key db_<table>, or the empty array when the key is
absent. -/
def getTableData (st : Storage) (table : String) : List Obj :=
  (jsLookup ("db_" ++ table) st).getD []

/-- setTableData from src/lib/database.ts lines 128 to 130. -/
def setTableData (st : Storage) (table : String) (data : List Obj) : Storage :=
  assocSet st ("db_" ++ table) data

/-- LocalStorageDatabaseProvider.insert from src/lib/database.ts lines
138 to 150: builds the new item as the object literal with the
generated id first, then the spread of data (which can override the
id), then created_at and updated_at (which override any such fields of
data), appends it to the table and returns it. The generated id and the
timestamp are passed in as parameters. -/
def lsInsert (st : Storage) (table : String) (data : Obj)
    (genId timestamp : String) : Obj × Storage :=
  let tableData := getTableData st table
  let newItem :=
    objMerge (objMerge [("id", genId)] data)
      [("created_at", timestamp), ("updated_at", timestamp)]
  (newItem, setTableData st table (tableData ++ [newItem]))

/-- LocalStorageDatabaseProvider.delete from src/lib/database.ts lines
168 to 172: writes back the table filtered to the records whose id
differs from the given one. A total function: the source method has no
throwing path. -/
def lsDelete (st : Storage) (table id : String) : Storage :=
  setTableData st table
    ((getTableData st table).filter fun item => !(objGet item "id" == some id))

/-- LocalStorageDatabaseProvider.findById from src/lib/database.ts
lines 174 to 177: the first record of the table whose id field equals
the given id, or null. -/
def lsFindById (st : Storage) (table id : String) : Option Obj :=
  (getTableData st table).find? fun item => objGet item "id" == some id

theorem jsLookup_map_replace {α : Type} (l : List (String × α)) (k : String)
    (v : α) (h : k ∈ l.map Prod.fst) :
    jsLookup k (l.map fun p => if p.1 = k then (k, v) else p) = some v := by
  induction l with
  | nil => simp at h
  | cons p l ih =>
    obtain ⟨a, b⟩ := p
    rw [List.map_cons] at h
    by_cases ha : a = k
    · subst ha
      simp [jsLookup]
    · have hk : k ∈ l.map Prod.fst := by
        rcases List.mem_cons.mp h with h1 | h1
        · exact absurd h1.symm ha
        · exact h1
      simpa [jsLookup, ha] using ih hk

theorem jsLookup_append_singleton {α : Type} (l : List (String × α)) (k : String)
    (v : α) (h : k ∉ l.map Prod.fst) : jsLookup k (l ++ [(k, v)]) = some v := by
  induction l with
  | nil => simp [jsLookup]
  | cons p l ih =>
    have hne : p.1 ≠ k := by
      intro e
      exact h (by simp [e])
    have hk : k ∉ l.map Prod.fst := fun hm => h (by simp [hm])
    simpa [jsLookup, hne] using ih hk

theorem jsLookup_assocSet_self {α : Type} (l : List (String × α)) (k : String)
    (v : α) : jsLookup k (assocSet l k v) = some v := by
  unfold assocSet
  split
  · exact jsLookup_map_replace l k v (by assumption)
  · exact jsLookup_append_singleton l k v (by assumption)

theorem head?_assocSet_isSome {α : Type} (l : List (String × α)) (k : String)
    (v : α) : ((assocSet l k v).head?).isSome = true := by
  unfold assocSet
  split
  · cases l with
    | nil => simp_all
    | cons p t => simp
  · cases l with
    | nil => simp
    | cons p t => simp

theorem find?_append_all_false {α : Type} (l₁ l₂ : List α) (p : α → Bool)
    (h : ∀ x ∈ l₁, p x = false) : (l₁ ++ l₂).find? p = l₂.find? p := by
  induction l₁ with
  | nil => rfl
  | cons a l ih =>
    have ha := h a (List.mem_cons_self a l)
    simpa [List.find?, ha] using ih fun x hx => h x (List.mem_cons_of_mem a hx)

theorem jsLookup_eq_none_of_not_mem {α : Type} (l : List (String × α))
    (k : String) (h : k ∉ l.map Prod.fst) : jsLookup k l = none := by
  induction l with
  | nil => rfl
  | cons p l ih =>
    have hne : p.1 ≠ k := by
      intro e
      exact h (by simp [e])
    have hk : k ∉ l.map Prod.fst := fun hm => h (by simp [hm])
    simpa [jsLookup, hne] using ih hk

theorem getTableData_setTableData (st : Storage) (table : String)
    (data : List Obj) : getTableData (setTableData st table data) table = data := by
  unfold getTableData setTableData
  rw [jsLookup_assocSet_self]
  rfl

theorem jsSplit_ne_nil (sep : Char) (l : List Char) : jsSplit sep l ≠ [] := by
  cases l with
  | nil => simp [jsSplit]
  | cons c rest =>
    unfold jsSplit
    cases h : jsSplit sep rest with
    | nil => simp
    | cons a t =>
      by_cases hc : c == sep <;> simp [hc]

theorem jsSplit_headD_eq_takeWhile (sep : Char) (l : List Char) :
    (jsSplit sep l).headD [] = l.takeWhile fun c => !(c == sep) := by
  induction l with
  | nil => rfl
  | cons c rest ih =>
    unfold jsSplit
    cases h : jsSplit sep rest with
    | nil => exact absurd h (jsSplit_ne_nil sep rest)
    | cons a t =>
      rw [h] at ih
      by_cases hc : c == sep
      · have hcc : c = sep := by simpa using hc
        simp [hc, List.takeWhile, hcc]
      · simp only [hc, if_neg, List.takeWhile]
        have hb : (!(c == sep)) = true := by simp_all
        simp [hc, hb, ← ih]

theorem takeWhile_decomp (l : List Char) (h : l.contains '@' = true) :
    ∃ rest, l = (l.takeWhile fun c => !(c == '@')) ++ '@' :: rest := by
  induction l with
  | nil => simp at h
  | cons c cs ih =>
    by_cases hc : c = '@'
    · subst hc
      exact ⟨cs, by simp [List.takeWhile]⟩
    · have hcb : (c == '@') = false := beq_eq_false_iff_ne.mpr hc
      have hcs : cs.contains '@' = true := by
        simpa [List.contains, List.elem, beq_eq_false_iff_ne.mpr fun e => hc e.symm]
          using h
      obtain ⟨rest, hr⟩ := ih hcs
      refine ⟨rest, ?_⟩
      simp only [List.takeWhile, hcb]
      exact congrArg (c :: ·) hr

/-- Claim C3: for every feature of the enumerated set and every
environment, isFeatureEnabled returns true exactly when the designated
NEXT_PUBLIC_ENABLE variable equals the literal string true; since the
equation compares against some "true", every other value, including
TRUE, 1 and the variable being unset, yields false. -/
theorem isFeatureEnabled_iff_literal_true (env : Env) (f : FeatureName) :
    isFeatureEnabled env f = (featureVar f env == some "true") := by
  cases f <;> rfl

/-- Environment for the C4 counterexample: full stripe primary
credentials but no webhook secret, auth0 domain and client id but no
client secret, aws access key and secret but no region. -/
def partialCredsEnv : Env where
  NEXT_PUBLIC_STRIPE_PUBLISHABLE_KEY := some "pk_test_123"
  STRIPE_SECRET_KEY := some "sk_test_123"
  AUTH0_DOMAIN := some "example.auth0.com"
  AUTH0_CLIENT_ID := some "client123"
  AWS_ACCESS_KEY_ID := some "AKIA123"
  AWS_SECRET_ACCESS_KEY := some "secret123"

/-- Claim C4 counterexample: with the webhook secret removed, stripe is
still enabled; with the client secret removed, auth0 is still enabled;
with the region removed, aws is still enabled. The claim, which lists
those fields as required and asserts that removing any one flips the
predicate to false, is therefore false of the code. -/
theorem isProviderEnabled_counterexample :
    isProviderEnabled partialCredsEnv .stripe = true ∧
    partialCredsEnv.STRIPE_WEBHOOK_SECRET = none ∧
    isProviderEnabled partialCredsEnv .auth0 = true ∧
    partialCredsEnv.AUTH0_CLIENT_SECRET = none ∧
    isProviderEnabled partialCredsEnv .aws = true ∧
    partialCredsEnv.AWS_REGION = none := by
  decide

/-- Claim C4 as amended: isProviderEnabled is true exactly when every
required credential field of the provider is present and non-empty,
where the required fields are supabase url and anonKey, stripe
publishableKey and secretKey, auth0 domain and clientId, sendgrid
apiKey, and aws accessKeyId and secretAccessKey; removing any one of
those flips the predicate to false, while the stripe webhookSecret, the
auth0 clientSecret and the aws region (which merely defaults) do not
participate. -/
theorem isProviderEnabled_required_fields (env : Env) :
    isProviderEnabled env .supabase =
      (truthy env.NEXT_PUBLIC_SUPABASE_URL &&
        truthy env.NEXT_PUBLIC_SUPABASE_ANON_KEY) ∧
    isProviderEnabled env .stripe =
      (truthy env.NEXT_PUBLIC_STRIPE_PUBLISHABLE_KEY &&
        truthy env.STRIPE_SECRET_KEY) ∧
    isProviderEnabled env .auth0 =
      (truthy env.AUTH0_DOMAIN && truthy env.AUTH0_CLIENT_ID) ∧
    isProviderEnabled env .sendgrid = truthy env.SENDGRID_API_KEY ∧
    isProviderEnabled env .aws =
      (truthy env.AWS_ACCESS_KEY_ID && truthy env.AWS_SECRET_ACCESS_KEY) ∧
    isProviderEnabled { env with NEXT_PUBLIC_SUPABASE_URL := none } .supabase = false ∧
    isProviderEnabled { env with NEXT_PUBLIC_SUPABASE_ANON_KEY := none } .supabase = false ∧
    isProviderEnabled { env with NEXT_PUBLIC_STRIPE_PUBLISHABLE_KEY := none } .stripe = false ∧
    isProviderEnabled { env with STRIPE_SECRET_KEY := none } .stripe = false ∧
    isProviderEnabled { env with AUTH0_DOMAIN := none } .auth0 = false ∧
    isProviderEnabled { env with AUTH0_CLIENT_ID := none } .auth0 = false ∧
    isProviderEnabled { env with SENDGRID_API_KEY := none } .sendgrid = false ∧
    isProviderEnabled { env with AWS_ACCESS_KEY_ID := none } .aws = false ∧
    isProviderEnabled { env with AWS_SECRET_ACCESS_KEY := none } .aws = false ∧
    isProviderEnabled { env with STRIPE_WEBHOOK_SECRET := none } .stripe =
      isProviderEnabled env .stripe ∧
    isProviderEnabled { env with AUTH0_CLIENT_SECRET := none } .auth0 =
      isProviderEnabled env .auth0 ∧
    isProviderEnabled { env with AWS_REGION := none } .aws =
      isProviderEnabled env .aws := by
  refine ⟨rfl, rfl, rfl, rfl, rfl, rfl, ?_, rfl, ?_, rfl, ?_, rfl, rfl, ?_, rfl, rfl, rfl⟩
  · show (truthy _ && truthy none) = false
    cases truthy env.NEXT_PUBLIC_SUPABASE_URL <;> rfl
  · show (truthy _ && truthy none) = false
    cases truthy env.NEXT_PUBLIC_STRIPE_PUBLISHABLE_KEY <;> rfl
  · show (truthy _ && truthy none) = false
    cases truthy env.AUTH0_DOMAIN <;> rfl
  · show (truthy _ && truthy none) = false
    cases truthy env.AWS_ACCESS_KEY_ID <;> rfl

/-- Claim C1: in an environment with the database feature enabled, the
supabase provider disabled and an execution mode other than
development, getDatabaseProvider throws at construction time, while
under the analogous auth environment (authentication enabled, neither
supabase nor auth0 enabled, not development) getAuthProvider returns
the disabled stub without failing. -/
theorem factory_asymmetry_production (env : Env)
    (hdb : isFeatureEnabled env .database = true)
    (hsup : isProviderEnabled env .supabase = false)
    (hauth : isFeatureEnabled env .authentication = true)
    (ha0 : isProviderEnabled env .auth0 = false)
    (hprod : env.NODE_ENV ≠ some "development") :
    getDatabaseProvider env =
      .error (.error "Supabase is required for database functionality") ∧
    getAuthProvider env = .noAuth := by
  have hne : (env.NODE_ENV == some "development") = false :=
    beq_eq_false_iff_ne.mpr hprod
  constructor
  · simp [getDatabaseProvider, hdb, hsup, hne]
  · simp [getAuthProvider, hauth, hsup, ha0, hne]

/-- Production environment with both features on and no credentials,
instantiating claim C1. -/
def noCredsProdEnv : Env where
  NEXT_PUBLIC_ENABLE_AUTH := some "true"
  NEXT_PUBLIC_ENABLE_DATABASE := some "true"
  NODE_ENV := some "production"

/-- Witness for claim C1: the hypotheses hold and the conclusion
follows at the concrete production environment with no credentials. -/
theorem factory_asymmetry_production_witness :
    (isFeatureEnabled noCredsProdEnv .database = true ∧
     isProviderEnabled noCredsProdEnv .supabase = false ∧
     isFeatureEnabled noCredsProdEnv .authentication = true ∧
     isProviderEnabled noCredsProdEnv .auth0 = false ∧
     noCredsProdEnv.NODE_ENV ≠ some "development") ∧
    getDatabaseProvider noCredsProdEnv =
      .error (.error "Supabase is required for database functionality") ∧
    getAuthProvider noCredsProdEnv = .noAuth :=
  ⟨⟨by decide, by decide, by decide, by decide, by decide⟩,
    factory_asymmetry_production noCredsProdEnv (by decide) (by decide)
      (by decide) (by decide) (by decide)⟩

/-- Claim C2 counterexample: on the disabled auth stub, getCurrentUser
succeeds with null and signOut succeeds as a no-op, so neither returns
a CapabilityDisabled error; the claim that every operation of every
disabled-stub provider returns such an error is therefore false. -/
theorem disabledProvider_counterexample :
    disabledProviderOutcome (.authOp .getCurrentUser) = .nullOk ∧
    isCapabilityDisabled (disabledProviderOutcome (.authOp .getCurrentUser)) = false ∧
    disabledProviderOutcome (.authOp .signOut) = .unitOk ∧
    isCapabilityDisabled (disabledProviderOutcome (.authOp .signOut)) = false := by
  decide

/-- Claim C2 as amended: every operation of the disabled database and
payments stubs, and the four credentialed auth operations, throws its
domain CapabilityDisabled error; the two exceptions are the disabled
auth stub signOut, a silent no-op, and getCurrentUser, which returns
null. -/
theorem disabledProvider_outcomes :
    ∀ op : DisabledOp,
      isCapabilityDisabled (disabledProviderOutcome op) =
        (op != .authOp .signOut && op != .authOp .getCurrentUser) ∧
      disabledProviderOutcome (.authOp .signOut) = .unitOk ∧
      disabledProviderOutcome (.authOp .getCurrentUser) = .nullOk := by
  decide

/-- Claim C6 counterexample: at an unknown name the runtime member
access yields undefined, so isFeatureEnabled crashes with an untyped
TypeError fault (reading .enabled of undefined) and getProviderConfig
silently returns undefined; no UnknownCapability error kind exists
anywhere in the code, so the claim is false. -/
theorem unknownCapability_counterexample :
    isFeatureEnabledJs {} "bogus" = .typeErrorFault ∧
    getFeatureFallbackJs {} "bogus" = .typeErrorFault ∧
    isProviderEnabledJs {} "bogus" = .typeErrorFault ∧
    getProviderConfigJs {} "bogus" = none := by
  decide

/-- Claim C6 as amended: for every name outside the closed feature set,
isFeatureEnabled and getFeatureFallback crash with an untyped TypeError
fault, and for every name outside the closed provider set,
isProviderEnabled crashes with the same fault while getProviderConfig
silently returns undefined; none of them produces a typed
UnknownCapability error. -/
theorem unknownCapability_behaviour (env : Env) (fname pname : String)
    (hf : fname ∉ ["authentication", "database", "payments", "realtime",
      "analytics", "email", "fileUpload", "notifications"])
    (hp : pname ∉ ["supabase", "stripe", "auth0", "sendgrid", "aws"]) :
    isFeatureEnabledJs env fname = .typeErrorFault ∧
    getFeatureFallbackJs env fname = .typeErrorFault ∧
    isProviderEnabledJs env pname = .typeErrorFault ∧
    getProviderConfigJs env pname = none := by
  have hfk : fname ∉ (featuresEntries (config env).features).map Prod.fst := hf
  have hpk : pname ∉ (providersEntries (config env).providers).map Prod.fst := hp
  have h1 := jsLookup_eq_none_of_not_mem (featuresEntries (config env).features)
    fname hfk
  have h2 := jsLookup_eq_none_of_not_mem (providersEntries (config env).providers)
    pname hpk
  refine ⟨?_, ?_, ?_, ?_⟩
  · simp [isFeatureEnabledJs, h1]
  · simp [getFeatureFallbackJs, h1]
  · simp [isProviderEnabledJs, h2]
  · simp [getProviderConfigJs, h2]

/-- Witness for the amended claim C6 at the concrete unknown name
bogus on the empty environment. -/
theorem unknownCapability_behaviour_witness :
    ("bogus" ∉ ["authentication", "database", "payments", "realtime",
      "analytics", "email", "fileUpload", "notifications"]) ∧
    ("bogus" ∉ ["supabase", "stripe", "auth0", "sendgrid", "aws"]) ∧
    (isFeatureEnabledJs {} "bogus" = .typeErrorFault ∧
     getFeatureFallbackJs {} "bogus" = .typeErrorFault ∧
     isProviderEnabledJs {} "bogus" = .typeErrorFault ∧
     getProviderConfigJs {} "bogus" = none) :=
  ⟨by decide, by decide,
    unknownCapability_behaviour {} "bogus" "bogus" (by decide) (by decide)⟩

/-- Claim C7 counterexample: on the mock auth provider, after a
successful signIn followed by signOut, getCurrentUser does not return
null, because signOut is a no-op that never clears the users Map. -/
theorem mockSignOut_counterexample :
    mockGetCurrentUser (mockSignOut (mockSignIn [] "a@b.com" "x").2) ≠ none := by
  decide

/-- Claim C7 as amended: getCurrentUser is a pure read performing no
transition, but signOut on the mock auth provider is a no-op that
leaves the users Map unchanged in every state, so after a successful
signIn from the empty state followed by signOut, getCurrentUser returns
the signed-in user rather than null. -/
theorem mockSignOut_noop (s : MockAuthState) (email password : String) :
    mockSignOut s = s ∧
    mockGetCurrentUser (mockSignOut (mockSignIn [] email password).2) =
      some (mockSignIn [] email password).1 := by
  refine ⟨rfl, ?_⟩
  simp [mockSignIn, mockSignOut, mockGetCurrentUser, assocSet]

/-- Claim C8: on the mock auth provider, signIn always succeeds for any
state, returning a user whose email is the given email and whose name
is the substring of the email before the first at-sign (formalised as
the characters taken while differing from the at-sign, which the second
conjunct proves to be exactly the prefix up to the first at-sign), and
the state afterwards makes getCurrentUser return a non-null user. -/
theorem mockSignIn_localPart (s : MockAuthState) (email password : String)
    (h : email.toList.contains '@' = true) :
    ((mockSignIn s email password).1).name =
      some ((email.toList.takeWhile fun c => !(c == '@')).asString) ∧
    (∃ rest, email.toList =
      (email.toList.takeWhile fun c => !(c == '@')) ++ '@' :: rest) ∧
    ((mockSignIn s email password).1).email = email ∧
    (mockGetCurrentUser (mockSignIn s email password).2).isSome = true := by
  refine ⟨?_, takeWhile_decomp email.toList h, rfl, ?_⟩
  · show some (localPart email) = _
    unfold localPart
    rw [jsSplit_headD_eq_takeWhile]
  · show ((assocSet s email _).head?.map Prod.snd).isSome = true
    have hs := head?_assocSet_isSome s email
      ⟨"mock-user-1", email, some (localPart email), none, some "user"⟩
    cases hh : (assocSet s email
        ⟨"mock-user-1", email, some (localPart email), none, some "user"⟩).head? with
    | none => rw [hh] at hs; simp at hs
    | some p => simp [hh]

/-- Witness for claim C8 at the concrete signIn of a at b.com with
password x on the empty state. -/
theorem mockSignIn_localPart_witness :
    ("a@b.com".toList.contains '@' = true) ∧
    (((mockSignIn [] "a@b.com" "x").1).name =
      some (("a@b.com".toList.takeWhile fun c => !(c == '@')).asString) ∧
    (∃ rest, "a@b.com".toList =
      ("a@b.com".toList.takeWhile fun c => !(c == '@')) ++ '@' :: rest) ∧
    ((mockSignIn [] "a@b.com" "x").1).email = "a@b.com" ∧
    (mockGetCurrentUser (mockSignIn [] "a@b.com" "x").2).isSome = true) :=
  ⟨by decide, mockSignIn_localPart [] "a@b.com" "x" (by decide)⟩

/-- Claim C9 counterexample: because the object literal spreads data
after the generated id, inserting data that carries an id field
colliding with an existing record makes findById return the older
record, not the insert result; with two inserts of id x the round trip
fails. -/
theorem insert_findById_counterexample :
    let st1 := (lsInsert [] "t" [("id", "x"), ("a", "1")] "g1" "t1").2
    let second := lsInsert st1 "t" [("id", "x"), ("a", "2")] "g2" "t2"
    objGet second.1 "id" = some "x" ∧
    lsFindById second.2 "t" "x" ≠ some second.1 := by
  decide

/-- Claim C9 as amended: for the local-storage fallback database
provider (the database capability has no separate mock variant in the
code), inserting a record and immediately looking up the returned id
yields a record equal to the insert result, provided no record already
stored in that table carries the same id as the returned record — in
particular whenever the inserted data does not override the generated
id with a colliding value. -/
theorem insert_findById_roundtrip (st : Storage) (table : String) (data : Obj)
    (genId timestamp rid : String)
    (hid : objGet (lsInsert st table data genId timestamp).1 "id" = some rid)
    (hfresh : ∀ item ∈ getTableData st table, objGet item "id" ≠ some rid) :
    lsFindById (lsInsert st table data genId timestamp).2 table rid =
      some (lsInsert st table data genId timestamp).1 := by
  unfold lsFindById
  unfold lsInsert at hid ⊢
  simp only at hid ⊢
  rw [getTableData_setTableData]
  rw [find?_append_all_false _ _ _ fun item hitem =>
    beq_eq_false_iff_ne.mpr (hfresh item hitem)]
  simp [List.find?, hid]

/-- Witness for the amended claim C9: inserting a record without an id
field into the empty store and looking up the generated id returns the
insert result. -/
theorem insert_findById_roundtrip_witness :
    (objGet (lsInsert [] "t" [("a", "1")] "g" "ts").1 "id" = some "g") ∧
    (∀ item ∈ getTableData ([] : Storage) "t", objGet item "id" ≠ some "g") ∧
    lsFindById (lsInsert [] "t" [("a", "1")] "g" "ts").2 "t" "g" =
      some (lsInsert [] "t" [("a", "1")] "g" "ts").1 :=
  ⟨by decide, by decide,
    insert_findById_roundtrip [] "t" [("a", "1")] "g" "ts" "g"
      (by decide) (by decide)⟩

/-- Claim C10: delete on the local-storage provider is a total
operation that never fails; when no record of the table has the given
id it leaves the table exactly as it was, and when the table decomposes
around a unique record with that id it removes exactly that record,
keeping all others in their original order. -/
theorem lsDelete_frame (st : Storage) (table id : String) :
    ((∀ item ∈ getTableData st table, objGet item "id" ≠ some id) →
      getTableData (lsDelete st table id) table = getTableData st table) ∧
    (∀ pre rec post, getTableData st table = pre ++ rec :: post →
      objGet rec "id" = some id →
      (∀ item ∈ pre, objGet item "id" ≠ some id) →
      (∀ item ∈ post, objGet item "id" ≠ some id) →
      getTableData (lsDelete st table id) table = pre ++ post) := by
  constructor
  · intro hnone
    unfold lsDelete
    rw [getTableData_setTableData]
    apply List.filter_eq_self.mpr
    intro item hitem
    simp [beq_eq_false_iff_ne.mpr (hnone item hitem)]
  · intro pre rec post hdecomp hrec hpre hpost
    unfold lsDelete
    rw [getTableData_setTableData, hdecomp, List.filter_append]
    have h1 : pre.filter (fun item => !(objGet item "id" == some id)) = pre := by
      apply List.filter_eq_self.mpr
      intro item hitem
      simp [beq_eq_false_iff_ne.mpr (hpre item hitem)]
    have h2 : post.filter (fun item => !(objGet item "id" == some id)) = post := by
      apply List.filter_eq_self.mpr
      intro item hitem
      simp [beq_eq_false_iff_ne.mpr (hpost item hitem)]
    rw [h1, List.filter_cons]
    simp [hrec, h2]

/-- Store for the C10 witness: one table t holding two records with ids
a and b. -/
def twoRecordStorage : Storage :=
  [("db_t", [[("id", "a")], [("id", "b")]])]

/-- Witness for claim C10: deleting a missing id leaves the table
unchanged, and deleting id b removes exactly the second record. -/
theorem lsDelete_frame_witness :
    ((∀ item ∈ getTableData twoRecordStorage "t", objGet item "id" ≠ some "zzz") ∧
     getTableData (lsDelete twoRecordStorage "t" "zzz") "t" =
       getTableData twoRecordStorage "t") ∧
    (getTableData twoRecordStorage "t" = [[("id", "a")]] ++ [("id", "b")] :: [] ∧
     objGet [("id", "b")] "id" = some "b" ∧
     getTableData (lsDelete twoRecordStorage "t" "b") "t" =
       [[("id", "a")]] ++ []) :=
  ⟨⟨by decide, (lsDelete_frame twoRecordStorage "t" "zzz").1 (by decide)⟩,
   ⟨by decide, by decide,
    (lsDelete_frame twoRecordStorage "t" "b").2 [[("id", "a")]] [("id", "b")] []
      (by decide) (by decide) (by decide) (by decide)⟩⟩

/-- Claim C5: validateConfig is a pure total function (the embedding is
a total Lean function, mirroring that the source never throws); its
valid field is true exactly when its errors list is empty; the errors
list contains exactly the per-rule entries — every required flag is the
literal false, so the required-feature rule never contributes, and each
of the three feature-to-provider dependency rules contributes its one
message exactly when violated; the payments message mentions both the
feature name payments and the provider name stripe; and enabling stripe
again (setting both of its required credentials) removes exactly the
payments error, leaving every other error in place and in order. -/
theorem validateConfig_rules (env : Env) :
    ((validateConfig env).valid = true ↔ (validateConfig env).errors = []) ∧
    (validateConfig env).errors =
      ((if (config env).features.database.enabled &&
          !(config env).providers.supabase.enabled
        then [dbDependencyMsg] else []) ++
      (if (config env).features.payments.enabled &&
          !(config env).providers.stripe.enabled
        then [paymentsDependencyMsg] else [])) ++
      (if (config env).features.email.enabled &&
          !(config env).providers.sendgrid.enabled
        then [emailDependencyMsg] else []) ∧
    mentionsWord paymentsDependencyMsg "payments" = true ∧
    mentionsWord paymentsDependencyMsg "stripe" = true ∧
    (validateConfig { env with
        NEXT_PUBLIC_STRIPE_PUBLISHABLE_KEY := some "pk",
        STRIPE_SECRET_KEY := some "sk" }).errors =
      ((validateConfig env).errors).filter
        (fun e => e != paymentsDependencyMsg) := by
  have e1 : (validateConfig env).errors =
      ((if env.NEXT_PUBLIC_ENABLE_DATABASE == some "true" &&
          !(truthy env.NEXT_PUBLIC_SUPABASE_URL &&
            truthy env.NEXT_PUBLIC_SUPABASE_ANON_KEY)
        then [dbDependencyMsg] else []) ++
      (if env.NEXT_PUBLIC_ENABLE_PAYMENTS == some "true" &&
          !(truthy env.NEXT_PUBLIC_STRIPE_PUBLISHABLE_KEY &&
            truthy env.STRIPE_SECRET_KEY)
        then [paymentsDependencyMsg] else [])) ++
      (if env.NEXT_PUBLIC_ENABLE_EMAIL == some "true" &&
          !(truthy env.SENDGRID_API_KEY)
        then [emailDependencyMsg] else []) := rfl
  refine ⟨List.isEmpty_iff, rfl, by decide, by decide, ?_⟩
  have e2 : (validateConfig { env with
      NEXT_PUBLIC_STRIPE_PUBLISHABLE_KEY := some "pk",
      STRIPE_SECRET_KEY := some "sk" }).errors =
      ((if env.NEXT_PUBLIC_ENABLE_DATABASE == some "true" &&
          !(truthy env.NEXT_PUBLIC_SUPABASE_URL &&
            truthy env.NEXT_PUBLIC_SUPABASE_ANON_KEY)
        then [dbDependencyMsg] else []) ++
      (if env.NEXT_PUBLIC_ENABLE_PAYMENTS == some "true" &&
          !(truthy (some "pk") && truthy (some "sk"))
        then [paymentsDependencyMsg] else [])) ++
      (if env.NEXT_PUBLIC_ENABLE_EMAIL == some "true" &&
          !(truthy env.SENDGRID_API_KEY)
        then [emailDependencyMsg] else []) := rfl
  have hsk : (truthy (some "pk") && truthy (some "sk")) = true := by decide
  rw [e1, e2, hsk]
  cases hdb : (env.NEXT_PUBLIC_ENABLE_DATABASE == some "true" &&
      !(truthy env.NEXT_PUBLIC_SUPABASE_URL &&
        truthy env.NEXT_PUBLIC_SUPABASE_ANON_KEY)) <;>
    cases hpay : (env.NEXT_PUBLIC_ENABLE_PAYMENTS == some "true") <;>
      cases hstr : (truthy env.NEXT_PUBLIC_STRIPE_PUBLISHABLE_KEY &&
          truthy env.STRIPE_SECRET_KEY) <;>
        cases hemail : (env.NEXT_PUBLIC_ENABLE_EMAIL == some "true" &&
            !(truthy env.SENDGRID_API_KEY)) <;>
          decide

end XionStack
